import Mathlib

/-!
Verification of the FO-stock-analytics core engine: a shallow embedding of
`src/indicators.py` (MetricEngine), `src/scoring.py` (ScoringEngine) and
`src/state_manager.py` (StateStore / TransitionDetector), together with the
state flow of `run_analytics_engine` in `src/main.py`.

Python/NumPy floats are modelled by `PFloat`: an exact rational, `nan`, or a
signed infinity.  IEEE comparison semantics are kept: every ordered comparison
involving `nan` is false, and `pd.notna` is false exactly on `nan`.  NumPy
(pandas Series) division by zero yields a signed infinity for a nonzero
numerator and `nan` for `0/0`.  Dates are day numbers (days since 1970-01-01,
which was a Thursday).
-/

/-- A Python/NumPy double: `nan`, `+inf`, `-inf`, or an exact value. -/
inductive PFloat where
  | nan : PFloat
  | inf : PFloat
  | ninf : PFloat
  | val : ℚ → PFloat
deriving DecidableEq, Repr

/-- IEEE strict less-than: false whenever `nan` is involved. -/
def PFloat.lt : PFloat → PFloat → Bool
  | .val a, .val b => a < b
  | .val _, .inf => true
  | .ninf, .val _ => true
  | .ninf, .inf => true
  | _, _ => false

/-- IEEE less-or-equal: false whenever `nan` is involved. -/
def PFloat.le : PFloat → PFloat → Bool
  | .val a, .val b => a ≤ b
  | .val _, .inf => true
  | .ninf, .val _ => true
  | .ninf, .inf => true
  | .ninf, .ninf => true
  | .inf, .inf => true
  | _, _ => false

/-- IEEE strict greater-than. -/
def PFloat.gt (a b : PFloat) : Bool := PFloat.lt b a

/-- IEEE greater-or-equal. -/
def PFloat.ge (a b : PFloat) : Bool := PFloat.le b a

/-- `pd.notna`: true on every float except `nan` (infinities are not-NA). -/
def PFloat.notna : PFloat → Bool
  | .nan => false
  | _ => true

/-- Finite: an actual rational value (neither `nan` nor an infinity). -/
def PFloat.isFinite : PFloat → Bool
  | .val _ => true
  | _ => false

/-- IEEE negation. -/
def PFloat.neg : PFloat → PFloat
  | .nan => .nan
  | .inf => .ninf
  | .ninf => .inf
  | .val a => .val (-a)

/-- IEEE addition (`inf + -inf = nan`). -/
def PFloat.add : PFloat → PFloat → PFloat
  | .val a, .val b => .val (a + b)
  | .val _, .inf => .inf
  | .inf, .val _ => .inf
  | .inf, .inf => .inf
  | .val _, .ninf => .ninf
  | .ninf, .val _ => .ninf
  | .ninf, .ninf => .ninf
  | _, _ => .nan

/-- IEEE subtraction. -/
def PFloat.sub (a b : PFloat) : PFloat := a.add b.neg

/-- IEEE multiplication (`inf * 0 = nan`). -/
def PFloat.mul : PFloat → PFloat → PFloat
  | .val a, .val b => .val (a * b)
  | .val a, .inf => if 0 < a then .inf else if a < 0 then .ninf else .nan
  | .inf, .val a => if 0 < a then .inf else if a < 0 then .ninf else .nan
  | .val a, .ninf => if 0 < a then .ninf else if a < 0 then .inf else .nan
  | .ninf, .val a => if 0 < a then .ninf else if a < 0 then .inf else .nan
  | .inf, .inf => .inf
  | .inf, .ninf => .ninf
  | .ninf, .inf => .ninf
  | .ninf, .ninf => .inf
  | _, _ => .nan

/-- NumPy division: `x/0` is a signed infinity for `x ≠ 0` and `nan` for `0/0`;
`inf/inf = nan`; finite over an infinity is `0`. -/
def PFloat.div : PFloat → PFloat → PFloat
  | .val a, .val b =>
      if b = 0 then (if 0 < a then .inf else if a < 0 then .ninf else .nan)
      else .val (a / b)
  | .val _, .inf => .val 0
  | .val _, .ninf => .val 0
  | .inf, .val b => if b < 0 then .ninf else .inf
  | .ninf, .val b => if b < 0 then .inf else .ninf
  | _, _ => .nan

/-- IEEE absolute value. -/
def PFloat.pabs : PFloat → PFloat
  | .nan => .nan
  | .inf => .inf
  | .ninf => .inf
  | .val a => .val |a|

/-!
## Enriched-row data model

An enriched dataframe row (the output schema of `calculate_metrics` that
`scoring.generate_rating` and `state_manager` consume).  A pandas column is
present for all rows or for none, so column presence lives in `Cols`, one flag
per column; `Row` carries the cell values.  A missing column read through
`.get(key, default)` yields the default, and `.get(key)` yields `None`, which
behaves like `nan` under `pd.notna` and under ordered comparison.
-/

/-- Cell values of one enriched dataframe row. -/
structure Row where
  close : PFloat
  sma50 : PFloat
  sma200 : PFloat
  rsiWeekly : PFloat
  rsiMonthly : PFloat
  rv : PFloat
  mrs : PFloat
  rsLine : PFloat
  rsSMA20 : PFloat
  distSMA20 : PFloat
  rsBreakout : Bool
  goldenCross : Bool
deriving DecidableEq, Repr

/-- Column-presence flags of an enriched dataframe. -/
structure Cols where
  close : Bool
  sma50 : Bool
  sma200 : Bool
  rsiWeekly : Bool
  rsiMonthly : Bool
  rv : Bool
  mrs : Bool
  rsLine : Bool
  rsSMA20 : Bool
  distSMA20 : Bool
  rsBreakout : Bool
  goldenCross : Bool
deriving DecidableEq, Repr

/-- All columns present (the shape produced by `calculate_metrics`). -/
def Cols.all : Cols :=
  { close := true, sma50 := true, sma200 := true, rsiWeekly := true
    rsiMonthly := true, rv := true, mrs := true, rsLine := true
    rsSMA20 := true, distSMA20 := true, rsBreakout := true, goldenCross := true }

/-- An enriched dataframe: presence flags plus the rows in date order. -/
structure DataFrame where
  cols : Cols
  rows : List Row
deriving DecidableEq, Repr

/-- `row.get(key, default)`: the cell value if the column is present, else the
default. -/
def colGetD (present : Bool) (v : PFloat) (dflt : PFloat) : PFloat :=
  if present then v else dflt

/-- `row.get(key)`: the cell value if the column is present, else `None`
(modelled as `nan`, which matches `None` under `pd.notna` and comparison use). -/
def colGet (present : Bool) (v : PFloat) : PFloat :=
  if present then v else .nan

/-!
## state_manager.py

`state.json` maps a ticker to a snapshot dict.  A loaded snapshot may lack
keys (the code reads every field through `.get(key, default)`), so the
persisted entry has optional fields; `update_ticker_state` always writes all
of them.  A ticker absent from the state behaves as the empty dict `{}`,
which is falsy, as is a present-but-empty entry.
-/

/-- One persisted per-ticker snapshot (a `state.json` entry). -/
structure PrevEntry where
  close : Option PFloat
  sma50 : Option PFloat
  sma200 : Option PFloat
  rsi_weekly : Option PFloat
  mrs : Option PFloat
  rv : Option PFloat
  is_stage_2 : Option Bool
deriving DecidableEq, Repr

/-- The snapshot dict is falsy (`not prev`) iff it has no keys at all. -/
def PrevEntry.isEmptyDict (p : PrevEntry) : Bool :=
  p.close.isNone && p.sma50.isNone && p.sma200.isNone && p.rsi_weekly.isNone
    && p.mrs.isNone && p.rv.isNone && p.is_stage_2.isNone

/-- The full persisted state: ticker → snapshot entry. -/
def StateMap : Type := String → Option PrevEntry

/-- The empty state (`{}`, also the cold-start result of `load_previous_state`). -/
def emptyState : StateMap := fun _ => none

/-- `state_manager.get_ticker_alerts`: edge-triggered transition alerts of the
latest row against the stored snapshot.  The alert messages are modelled as a
tagged type carrying the numeric payload that the Python f-strings format. -/
inductive Alert where
  | initialBaseline
  | enteredStage2
  | exitedStage2
  | rsBreakout
  | rsBreakdown
  | volumeSpike (rv : PFloat)
  | crossedAboveSMA200 (sma200 : PFloat)
  | crossedBelowSMA200 (sma200 : PFloat)
  | crossedAboveSMA50 (sma50 : PFloat)
  | weeklyRSIReclaimed50
deriving DecidableEq, Repr

/-- `state_manager.get_ticker_alerts(ticker, current_data, previous_state)`.
`current_data is None or current_data.empty` returns no alerts; a falsy prior
snapshot returns only the baseline message; otherwise the six edge-trigger
blocks run in source order. -/
def get_ticker_alerts (ticker : String) (currentData : Option DataFrame)
    (previousState : StateMap) : List Alert :=
  match currentData with
  | none => []
  | some df =>
    match df.rows.getLast? with
    | none => []
    | some latest =>
      match previousState ticker with
      | none => [.initialBaseline]
      | some prev =>
        if prev.isEmptyDict then [.initialBaseline]
        else
          let close := colGetD df.cols.close latest.close (.val 0)
          let sma50 := colGetD df.cols.sma50 latest.sma50 (.val 0)
          let sma200 := colGetD df.cols.sma200 latest.sma200 (.val 0)
          let rsi_w := colGetD df.cols.rsiWeekly latest.rsiWeekly (.val 50)
          let mrs := colGetD df.cols.mrs latest.mrs (.val 0)
          let rv := colGetD df.cols.rv latest.rv (.val 1)
          -- 1. STAGE 2 TRANSITION
          let is_stage_2 := close.notna && sma50.notna && sma200.notna
            && close.gt sma50 && sma50.gt sma200
          let prev_stage_2 := prev.is_stage_2.getD false
          let a1 : List Alert :=
            if is_stage_2 && !prev_stage_2 then [.enteredStage2]
            else if !is_stage_2 && prev_stage_2 then [.exitedStage2]
            else []
          -- 2. RELATIVE STRENGTH BREAKOUT
          let prev_mrs := prev.mrs.getD (.val 0)
          let a2 : List Alert :=
            if mrs.gt (.val 0) && prev_mrs.le (.val 0) then [.rsBreakout]
            else if mrs.lt (.val 0) && prev_mrs.ge (.val 0) then [.rsBreakdown]
            else []
          -- 3. INSTITUTIONAL VOLUME
          let prev_rv := prev.rv.getD (.val 1)
          let a3 : List Alert :=
            if rv.ge (.val 2) && prev_rv.lt (.val 2) then [.volumeSpike rv] else []
          -- 4. PRICE / SMA CROSSINGS
          let prev_close := prev.close.getD (.val 0)
          let prev_sma200 := prev.sma200.getD (.val 0)
          let prev_sma50 := prev.sma50.getD (.val 0)
          let a4 : List Alert :=
            if close.gt sma200 && prev_close.le prev_sma200 then
              [.crossedAboveSMA200 sma200]
            else if close.lt sma200 && prev_close.ge prev_sma200 then
              [.crossedBelowSMA200 sma200]
            else []
          let a5 : List Alert :=
            if close.gt sma50 && prev_close.le prev_sma50 then
              [.crossedAboveSMA50 sma50]
            else []
          -- 5. MOMENTUM SHIFT (RSI)
          let prev_rsi_w := prev.rsi_weekly.getD (.val 0)
          let a6 : List Alert :=
            if rsi_w.notna && rsi_w.ge (.val 50) && prev_rsi_w.lt (.val 50) then
              [.weeklyRSIReclaimed50]
            else []
          a1 ++ a2 ++ a3 ++ a4 ++ a5 ++ a6

/-- `state_manager.update_ticker_state(ticker, analyzed_data, current_full_state)`:
writes the latest row's snapshot (every field present, `.get` defaults used
only for a missing column) into the running state and returns it. -/
def update_ticker_state (ticker : String) (analyzedData : Option DataFrame)
    (state : StateMap) : StateMap :=
  match analyzedData with
  | none => state
  | some df =>
    match df.rows.getLast? with
    | none => state
    | some latest =>
      let close := colGetD df.cols.close latest.close (.val 0)
      let sma50 := colGetD df.cols.sma50 latest.sma50 (.val 0)
      let sma200 := colGetD df.cols.sma200 latest.sma200 (.val 0)
      let rsi_w := colGetD df.cols.rsiWeekly latest.rsiWeekly (.val 50)
      let mrs := colGetD df.cols.mrs latest.mrs (.val 0)
      let rv := colGetD df.cols.rv latest.rv (.val 1)
      let entry : PrevEntry :=
        { close := some close, sma50 := some sma50, sma200 := some sma200
          rsi_weekly := some rsi_w, mrs := some mrs, rv := some rv
          is_stage_2 := some
            (if close.notna && sma50.notna && sma200.notna then
              close.gt sma50 && sma50.gt sma200
            else false) }
      fun t => if t = ticker then some entry else state t

/-- `state_manager.save_current_state`: `json.dump` writes the given map as-is;
`json_type_fixer` only coerces NumPy scalar wrappers, which the modelled values
(floats and bools) already are, so the persisted content is the argument map. -/
def save_current_state (fullState : StateMap) : StateMap := fullState

/-- The per-run state flow of `main.run_analytics_engine`: the run starts from
`current_full_state = {}` (line 228) and folds `update_ticker_state` over the
processed tickers in order; the loaded previous state is never merged in. -/
def run_analytics_state (processed : List (String × Option DataFrame)) : StateMap :=
  processed.foldl (fun st p => update_ticker_state p.1 p.2 st) emptyState

/-!
## scoring.py

`generate_rating` inspects only the latest row (plus the rolling 252-bar
extrema of the `Close` column for display metrics).  The five scoring blocks
below mirror the source's commented sections; the final payload carries the
numeric values that the Python code rounds/formats into display strings
(string formatting itself is not modelled).
-/

/-- Skip-NA maximum of a list of floats (`nan` iff no non-NA value). -/
def pmaxList (xs : List PFloat) : PFloat :=
  xs.foldl (fun acc x =>
    match acc, x with
    | .nan, _ => x
    | _, .nan => acc
    | a, b => if a.ge b then a else b) .nan

/-- Skip-NA minimum of a list of floats (`nan` iff no non-NA value). -/
def pminList (xs : List PFloat) : PFloat :=
  xs.foldl (fun acc x =>
    match acc, x with
    | .nan, _ => x
    | _, .nan => acc
    | a, b => if a.le b then a else b) .nan

/-- `df["Close"].rolling(window=252, min_periods=1).max().iloc[-1]`:
the skip-NA maximum of the last (up to) 252 closes. -/
def rolling_max_252_last (xs : List PFloat) : PFloat :=
  pmaxList (xs.drop (xs.length - 252))

/-- `df["Close"].rolling(window=252, min_periods=1).min().iloc[-1]`. -/
def rolling_min_252_last (xs : List PFloat) : PFloat :=
  pminList (xs.drop (xs.length - 252))

/-- Section "1. TREND & STAGE ANALYSIS (30)" of `generate_rating`. -/
def trend_stage_points (latest : Row) : Int :=
  if latest.close.gt latest.sma50 && latest.sma50.gt latest.sma200 then 30
  else if latest.close.gt latest.sma200 then 15
  else if latest.close.gt latest.sma50 then 5
  else 0

/-- Section "2. MULTI-TIMEFRAME MOMENTUM (20)" of `generate_rating`. -/
def mtf_momentum_points (c : Cols) (latest : Row) : Int :=
  let rsi_w := colGet c.rsiWeekly latest.rsiWeekly
  let rsi_m := colGet c.rsiMonthly latest.rsiMonthly
  (if rsi_m.notna && rsi_m.gt (.val 50) then 10 else 0)
    + (if rsi_w.notna && rsi_w.gt (.val 50) then 10 else 0)

/-- Section "3. INSTITUTIONAL VOLUME (20)" of `generate_rating`. -/
def volume_points (c : Cols) (latest : Row) : Int :=
  let rv := colGetD c.rv latest.rv (.val 1)
  if rv.ge (.val 2) then 20
  else if rv.ge (.val (3/2)) then 10
  else 0

/-- Section "4. RELATIVE STRENGTH (30)" of `generate_rating`. -/
def relative_strength_points (c : Cols) (latest : Row) : Int :=
  let mrs := colGetD c.mrs latest.mrs (.val 0)
  let rs_breakout := if c.rsBreakout then latest.rsBreakout else false
  if mrs.gt (.val 0) then 20 + (if rs_breakout then 10 else 0)
  else
    let rs_line := colGetD c.rsLine latest.rsLine (.val 0)
    let rs_sma20 := colGetD c.rsSMA20 latest.rsSMA20 (.val 0)
    if rs_line.gt rs_sma20 then 5 else 0

/-- Section "5. VOLATILITY GUARD (PENALTY)" condition (`is_extended`). -/
def is_extended_flag (c : Cols) (latest : Row) : Bool :=
  (colGetD c.distSMA20 latest.distSMA20 (.val 0)).gt (.val 3)

/-- Tier string from the clamped score (the "FINAL RATING" ladder). -/
def rating_of_score (score : Int) : String :=
  if score ≥ 80 then "Tier 1: Market Leader 🏆"
  else if score ≥ 60 then "Tier 2: Improving 📈"
  else if score ≥ 40 then "Tier 3: Neutral ⚖️"
  else if score ≥ 20 then "Tier 4: Lagging 📉"
  else "Tier 5: Avoid 🔴"

/-- The `events` dict of the rating payload. -/
structure ScoreEvents where
  golden_cross : Bool
  volume_spike : Bool
  rs_breakout : Bool
  stage_2 : Bool
deriving DecidableEq, Repr

/-- The `metrics` dict of the rating payload; numeric values before the
Python-side rounding/formatting into display strings, with `none` standing
for the `"N/A"` branches. -/
structure ScoreMetrics where
  weekly_rsi : Option PFloat
  mrs_value : PFloat
  rel_volume : PFloat
  dist_52w_high : Option PFloat
  dist_52w_low : Option PFloat
  volatility_risk_high : Bool
deriving DecidableEq, Repr

/-- The dict returned by `scoring.generate_rating`; `events`/`metrics` are
`none` for the empty dicts of the `_data_error` payload. -/
structure RatingResult where
  score : Int
  rating : String
  is_extended : Bool
  events : Option ScoreEvents
  metrics : Option ScoreMetrics
deriving DecidableEq, Repr

/-- `scoring._data_error()`. -/
def data_error_result : RatingResult :=
  { score := 0, rating := "Data Error", is_extended := false
    events := none, metrics := none }

/-- `scoring.generate_rating(df)`.  Returns `_data_error()` when the frame is
`None`/empty or one of the required columns `Close`, `SMA50`, `SMA200` is
missing; otherwise scores the latest row block by block, clamps at 0, picks
the tier, and assembles the payload (including the 52-week proximity
metrics from the rolling 252-bar extrema of the `Close` column). -/
def generate_rating (df : Option DataFrame) : RatingResult :=
  match df with
  | none => data_error_result
  | some d =>
    if !(d.cols.close && d.cols.sma50 && d.cols.sma200) then data_error_result
    else
      match d.rows.getLast? with
      | none => data_error_result
      | some latest =>
        let rsi_w := colGet d.cols.rsiWeekly latest.rsiWeekly
        let rv := colGetD d.cols.rv latest.rv (.val 1)
        let mrs := colGetD d.cols.mrs latest.mrs (.val 0)
        let rs_breakout := if d.cols.rsBreakout then latest.rsBreakout else false
        let is_stage_2 := latest.close.gt latest.sma50 && latest.sma50.gt latest.sma200
        let is_extended := is_extended_flag d.cols latest
        let raw : Int := trend_stage_points latest + mtf_momentum_points d.cols latest
          + volume_points d.cols latest + relative_strength_points d.cols latest
          - (if is_extended then 25 else 0)
        let score := max raw 0
        let closes := d.rows.map Row.close
        let high_52w := rolling_max_252_last closes
        let low_52w := rolling_min_252_last closes
        let dist_high : Option PFloat :=
          if high_52w.notna && high_52w.gt (.val 0) then
            some (((high_52w.sub latest.close).div high_52w).mul (.val 100))
          else none
        let dist_low : Option PFloat :=
          if low_52w.notna && low_52w.gt (.val 0) then
            some (((latest.close.sub low_52w).div low_52w).mul (.val 100))
          else none
        { score := score
          rating := rating_of_score score
          is_extended := is_extended
          events := some
            { golden_cross := if d.cols.goldenCross then latest.goldenCross else false
              volume_spike := rv.ge (.val 2)
              rs_breakout := rs_breakout
              stage_2 := is_stage_2 }
          metrics := some
            { weekly_rsi := if rsi_w.notna then some rsi_w else none
              mrs_value := mrs
              rel_volume := rv
              dist_52w_high := dist_high
              dist_52w_low := dist_low
              volatility_risk_high := is_extended } }

/-!
## indicators.py — series primitives

Vectorized pandas/pandas_ta operations over date-indexed series, as used by
`calculate_metrics`.  `ewmMean` is `Series.ewm(alpha, min_periods).mean()`
with the pandas defaults `adjust=True, ignore_na=False`: the running
numerator/denominator decay by `1 − alpha` each bar, a non-NA observation
contributes weight 1, and the output is NA until `min_periods` non-NA
observations have been seen.
-/

/-- `Series.diff(1)`: NA first, then consecutive differences. -/
def diff1 : List PFloat → List PFloat
  | [] => []
  | x :: xs => .nan :: List.zipWith PFloat.sub xs (x :: xs)

/-- Tail of `ewm(alpha, min_periods).mean()` given the running state. -/
def ewmAux (oneMinusAlpha : ℚ) (minp : ℕ) (num den : PFloat) (cnt : ℕ) :
    List PFloat → List PFloat
  | [] => []
  | x :: xs =>
    let num2 := if x.notna then ((PFloat.val oneMinusAlpha).mul num).add x
      else (PFloat.val oneMinusAlpha).mul num
    let den2 := if x.notna then ((PFloat.val oneMinusAlpha).mul den).add (.val 1)
      else (PFloat.val oneMinusAlpha).mul den
    let cnt2 := if x.notna then cnt + 1 else cnt
    (if minp ≤ cnt2 then num2.div den2 else .nan)
      :: ewmAux oneMinusAlpha minp num2 den2 cnt2 xs

/-- `Series.ewm(alpha=alpha, min_periods=minp).mean()` (pandas defaults). -/
def ewmMean (alpha : ℚ) (minp : ℕ) (xs : List PFloat) : List PFloat :=
  ewmAux (1 - alpha) minp (.val 0) (.val 0) 0 xs

/-- `pandas_ta.rma(x, length)`: `x.ewm(alpha=1/length, min_periods=length).mean()`. -/
def rma (length : ℕ) (xs : List PFloat) : List PFloat :=
  ewmMean (1 / (length : ℚ)) length xs

/-- `pandas_ta.rsi(close, length=14)`: Wilder RSI.  Gains and clipped losses
are RMA-smoothed and combined as `100 * pos_avg / (pos_avg + neg_avg)`
(`0/0` is NA, matching NumPy). -/
def rsi14 (closes : List PFloat) : List PFloat :=
  let d := diff1 closes
  let positive := d.map fun x =>
    match x with
    | .val q => .val (if q < 0 then 0 else q)
    | .inf => .inf
    | .ninf => .val 0
    | .nan => .nan
  let negative := d.map fun x =>
    match x with
    | .val q => .val (if 0 < q then 0 else -q)
    | .inf => .val 0
    | .ninf => .inf
    | .nan => .nan
  let positive_avg := rma 14 positive
  let negative_avg := rma 14 negative
  List.zipWith (fun p n => ((PFloat.val 100).mul p).div (p.add n))
    positive_avg negative_avg

/-- `pandas_ta.sma(x, length)` = `x.rolling(length, min_periods=length).mean()`:
NA until the window fills, and NA whenever the window contains an NA
(fewer than `length` non-NA observations). -/
def rollingMean (n : ℕ) (xs : List PFloat) : List PFloat :=
  (List.range xs.length).map fun i =>
    if i + 1 < n then .nan
    else
      let w := (xs.take (i + 1)).drop (i + 1 - n)
      if w.any (fun x => !x.notna) then .nan
      else (w.foldl PFloat.add (.val 0)).div (.val (n : ℚ))

/-- `pandas_ta.true_range`: row-wise skip-NA max of the three absolute ranges
against the previous close; the first bar is NA.  (The float-epsilon nudge of
`non_zero_range` for exactly-zero high−low ranges is not modelled — values
here are exact rationals.) -/
def trueRange (highs lows closes : List PFloat) : List PFloat :=
  (List.range highs.length).map fun i =>
    if i = 0 then .nan
    else
      let h := highs.getD i .nan
      let l := lows.getD i .nan
      let pc := closes.getD (i - 1) .nan
      pmaxList [(h.sub l).pabs, (h.sub pc).pabs, (pc.sub l).pabs]

/-- `pandas_ta.atr(high, low, close, length=14)` with the default RMA smoothing. -/
def atr14 (highs lows closes : List PFloat) : List PFloat :=
  rma 14 (trueRange highs lows closes)

/-!
## indicators.py — resampling calendar

Dates are day numbers since 1970-01-01 (a Thursday).  `resample("W")` labels
each bucket with its right edge, the Sunday on/after each contained day;
`resample("ME")` labels with the calendar month end.  The civil-calendar
conversion is the standard era-based algorithm.
-/

/-- The `resample("W")` bucket label of day `d`: the next Sunday on/after `d`
(day 3 is Sunday 1970-01-04). -/
def weekLabel (d : ℕ) : ℕ := d + (10 - d % 7) % 7

/-- Day number → `(year, month, day)` in the proleptic Gregorian calendar. -/
def civilFromDays (d : ℕ) : ℕ × ℕ × ℕ :=
  let z := d + 719468
  let era := z / 146097
  let doe := z % 146097
  let yoe := (doe - doe / 1460 + doe / 36524 - doe / 146096) / 365
  let y := yoe + era * 400
  let doy := doe - (365 * yoe + yoe / 4 - yoe / 100)
  let mp := (5 * doy + 2) / 153
  let dy := doy - (153 * mp + 2) / 5 + 1
  let m := if mp < 10 then mp + 3 else mp - 9
  (if m ≤ 2 then y + 1 else y, m, dy)

/-- `(year, month, day)` → day number (valid for dates on/after 1970-01-01). -/
def daysFromCivil (y m dy : ℕ) : ℕ :=
  let y2 := if m ≤ 2 then y - 1 else y
  let era := y2 / 400
  let yoe := y2 % 400
  let mp := if 2 < m then m - 3 else m + 9
  let doy := (153 * mp + 2) / 5 + dy - 1
  let doe := yoe * 365 + yoe / 4 - yoe / 100 + doy
  era * 146097 + doe - 719468

/-- Gregorian leap year. -/
def isLeapYear (y : ℕ) : Bool := (y % 4 == 0 && y % 100 != 0) || y % 400 == 0

/-- Days in a Gregorian month. -/
def daysInMonth (y m : ℕ) : ℕ :=
  if m = 2 then (if isLeapYear y then 29 else 28)
  else if m = 4 || m = 6 || m = 9 || m = 11 then 30
  else 31

/-- The `resample("ME")` bucket label of day `d`: the last day of `d`'s month. -/
def monthEnd (d : ℕ) : ℕ :=
  let c := civilFromDays d
  daysFromCivil c.1 c.2.1 (daysInMonth c.1 c.2.1)

/-- Insert into a strictly increasing list, keeping it strictly increasing. -/
def insertSorted (x : ℕ) : List ℕ → List ℕ
  | [] => [x]
  | y :: ys => if x < y then x :: y :: ys
    else if x = y then y :: ys
    else y :: insertSorted x ys

/-- Sort a list of day numbers, dropping duplicates. -/
def sortedDedup (xs : List ℕ) : List ℕ := xs.foldr insertSorted []

/-- The resample bins spanned by a daily index: the (sorted, distinct) bucket
labels of every calendar day from the first to the last index entry, so empty
bins inside the span are present, as in pandas. -/
def binLabelsFor (lab : ℕ → ℕ) (dates : List ℕ) : List ℕ :=
  match dates.head?, dates.getLast? with
  | some d0, some d1 =>
      sortedDedup ((List.range (d1 + 1 - d0)).map (fun i => lab (d0 + i)))
  | _, _ => []

/-- Last non-NA value of a list (`nan` if none): `GroupBy.last`. -/
def lastNotNA (xs : List PFloat) : PFloat :=
  xs.foldl (fun acc x => if x.notna then x else acc) .nan

/-- The resampled `Close` of the bucket labelled `L`: the `"Close": "last"`
aggregation over the rows whose bucket label is `L`. -/
def bucketCloseAt (lab : ℕ → ℕ) (closeRows : List (ℕ × PFloat)) (L : ℕ) : PFloat :=
  lastNotNA ((closeRows.filter (fun p => lab p.1 = L)).map Prod.snd)

/-- The per-bucket RSI series keyed by bucket label:
`ta.rsi(df.resample(rule).apply(ohlc)["Close"], length=14)`. -/
def resampleRSI (lab : ℕ → ℕ) (closeRows : List (ℕ × PFloat)) : List (ℕ × PFloat) :=
  let labels := binLabelsFor lab (closeRows.map Prod.fst)
  labels.zip (rsi14 (labels.map (bucketCloseAt lab closeRows)))

/-- `series.reindex(idx, method="ffill")` value at one index entry: the value
at the greatest series key `≤ d`, NA if there is none. -/
def ffillVal (series : List (ℕ × PFloat)) (d : ℕ) : PFloat :=
  match (series.filter (fun p => p.1 ≤ d)).getLast? with
  | some p => p.2
  | none => .nan

/-- `series.reindex(idx, method="ffill")`. -/
def reindexFfill (series : List (ℕ × PFloat)) (idx : List ℕ) : List (ℕ × PFloat) :=
  idx.map (fun d => (d, ffillVal series d))

/-- The multi-timeframe RSI column on the daily index (lines 94–102 of
`indicators.py`): resample, per-bucket RSI, forward-fill back onto the days. -/
def mtfRSI (lab : ℕ → ℕ) (closeRows : List (ℕ × PFloat)) : List (ℕ × PFloat) :=
  reindexFfill (resampleRSI lab closeRows) (closeRows.map Prod.fst)

/-!
## indicators.py — calculate_metrics

The price frame carries OHLC plus an optional `Volume` column (the code reads
it through `df.get("Volume")`); the benchmark argument is reduced by the
source to its `Close` series (or first column), so it is modelled as a
date-keyed close series.  The frame's `attrs["market_regime"]` string set at
the end is display metadata and is not modelled.
-/

/-- One raw OHLCV bar. -/
structure Bar where
  openPrice : PFloat
  high : PFloat
  low : PFloat
  close : PFloat
  volume : PFloat
deriving DecidableEq, Repr

/-- The input price frame: date-keyed bars, dates strictly increasing as
delivered by the data layer. -/
structure PriceDF where
  hasVolume : Bool
  rows : List (ℕ × Bar)
deriving DecidableEq, Repr

/-- `df["Close"].align(bench_close, join="inner")` then `df.loc[...]`: the
price rows whose date also occurs in the benchmark. -/
def alignedRows (df : PriceDF) (bench : List (ℕ × PFloat)) : List (ℕ × Bar) :=
  df.rows.filter (fun p => (bench.map Prod.fst).contains p.1)

/-- The dates of the aligned frame. -/
def alignedDates (df : PriceDF) (bench : List (ℕ × PFloat)) : List ℕ :=
  (alignedRows df bench).map Prod.fst

/-- The aligned frame's `Close` column as a date-keyed series (the series the
multi-timeframe resampling of `calculate_metrics` buckets). -/
def closeSeries (df : PriceDF) (bench : List (ℕ × PFloat)) : List (ℕ × PFloat) :=
  (alignedRows df bench).map (fun p => (p.1, p.2.close))

/-- The benchmark close at a date (NA when absent; only queried on dates
known to be present after the inner join). -/
def benchCloseAt (bench : List (ℕ × PFloat)) (d : ℕ) : PFloat :=
  match bench.find? (fun p => p.1 = d) with
  | some p => p.2
  | none => .nan

/-- One output row of `calculate_metrics`: the raw bar plus every computed
column of `indicators.py`. -/
structure MetricRow where
  date : ℕ
  openPrice : PFloat
  high : PFloat
  low : PFloat
  close : PFloat
  volume : PFloat
  sma20 : PFloat
  sma50 : PFloat
  sma200 : PFloat
  vol20avg : PFloat
  rv : PFloat
  volumeSpike : Bool
  rsLine : PFloat
  rsSMA50 : PFloat
  rsSMA20 : PFloat
  mrs : PFloat
  atr : PFloat
  distSMA20 : PFloat
  rsi : PFloat
  rsiWeekly : PFloat
  rsiMonthly : PFloat
  goldenCross : Bool
  rsBreakout : Bool
deriving DecidableEq, Repr

/-- `indicators.calculate_metrics(df, benchmark_df)`: aligns the frames on
their common dates and computes every indicator column of the source, in
source order. -/
def calculate_metrics (df : PriceDF) (bench : List (ℕ × PFloat)) : List MetricRow :=
  let rows := alignedRows df bench
  let n := rows.length
  let dates := rows.map Prod.fst
  let closes := rows.map (fun p => p.2.close)
  let highs := rows.map (fun p => p.2.high)
  let lows := rows.map (fun p => p.2.low)
  let volumes := rows.map (fun p => p.2.volume)
  let benchCloses := dates.map (benchCloseAt bench)
  -- 1. Trend Foundation & Stage Analysis
  let sma20 := rollingMean 20 closes
  let sma50 := rollingMean 50 closes
  let sma200 := rollingMean 200 closes
  -- 2. Institutional Volume Intelligence
  let vol20avg := if df.hasVolume then rollingMean 20 volumes
    else List.replicate n .nan
  let rvCol := if df.hasVolume then List.zipWith PFloat.div volumes vol20avg
    else List.replicate n .nan
  let volSpike := rvCol.map (fun x => x.ge (.val 2))
  -- 3. Mansfield Relative Strength (MRS)
  let rsLineCol := List.zipWith PFloat.div closes benchCloses
  let rsSMA50Col := rollingMean 50 rsLineCol
  let rsSMA20Col := rollingMean 20 rsLineCol
  let mrsCol := List.zipWith (fun r s => ((r.div s).sub (.val 1)).mul (.val 100))
    rsLineCol rsSMA50Col
  -- 4. Volatility Guard (ATR)
  let atrCol := atr14 highs lows closes
  let atrSafe := atrCol.map (fun x => if x = .val 0 then .nan else x)
  let distCol := List.zipWith PFloat.div (List.zipWith PFloat.sub closes sma20) atrSafe
  -- 5. Momentum (Daily RSI)
  let rsiCol := rsi14 closes
  -- 6. Multi-Timeframe RSI (Weekly / Monthly)
  let closePairs := rows.map (fun p => (p.1, p.2.close))
  let weeklyCol := (mtfRSI weekLabel closePairs).map Prod.snd
  let monthlyCol := (mtfRSI monthEnd closePairs).map Prod.snd
  -- 7. Critical Signal Triggers
  let golden := (List.range n).map (fun i =>
    if i = 0 then false
    else (sma50.getD i .nan).gt (sma200.getD i .nan)
      && (sma50.getD (i - 1) .nan).le (sma200.getD (i - 1) .nan))
  let rsBrk := (List.range n).map (fun i =>
    if i = 0 then false
    else (mrsCol.getD i .nan).gt (.val 0)
      && (mrsCol.getD (i - 1) .nan).le (.val 0))
  (List.range n).map (fun i =>
    { date := dates.getD i 0
      openPrice := (rows.map (fun p => p.2.openPrice)).getD i .nan
      high := highs.getD i .nan
      low := lows.getD i .nan
      close := closes.getD i .nan
      volume := volumes.getD i .nan
      sma20 := sma20.getD i .nan
      sma50 := sma50.getD i .nan
      sma200 := sma200.getD i .nan
      vol20avg := vol20avg.getD i .nan
      rv := rvCol.getD i .nan
      volumeSpike := volSpike.getD i false
      rsLine := rsLineCol.getD i .nan
      rsSMA50 := rsSMA50Col.getD i .nan
      rsSMA20 := rsSMA20Col.getD i .nan
      mrs := mrsCol.getD i .nan
      atr := atrCol.getD i .nan
      distSMA20 := distCol.getD i .nan
      rsi := rsiCol.getD i .nan
      rsiWeekly := weeklyCol.getD i .nan
      rsiMonthly := monthlyCol.getD i .nan
      goldenCross := golden.getD i false
      rsBreakout := rsBrk.getD i false })

/-- The no-look-ahead placement property: the value `v` on a daily row at
date `d` is exactly the series value of the most recent bucket whose label
is on/before `d` — or NA when no bucket has closed yet.  No bucket whose
label lies after `d` ever contributes. -/
def fromLatestBucketLE (series : List (ℕ × PFloat)) (d : ℕ) (v : PFloat) : Prop :=
  (∃ p, p ∈ series ∧ p.1 ≤ d ∧ (∀ q ∈ series, q.1 ≤ d → q.1 ≤ p.1) ∧ v = p.2)
    ∨ ((∀ q ∈ series, ¬ q.1 ≤ d) ∧ v = PFloat.nan)

/-!
## Concrete example inputs

Small concrete frames, rows and states used to instantiate the theorems and
to exhibit counterexamples.
-/

/-- A latest row in pure Stage-2 alignment (Close > SMA50 > SMA200) with
neutral momentum, volume, relative strength and volatility. -/
def exRowStage2 : Row where
  close := PFloat.val 100
  sma50 := PFloat.val 50
  sma200 := PFloat.val 10
  rsiWeekly := PFloat.val 50
  rsiMonthly := PFloat.val 50
  rv := PFloat.val 1
  mrs := PFloat.val 0
  rsLine := PFloat.val 0
  rsSMA20 := PFloat.val 0
  distSMA20 := PFloat.val 0
  rsBreakout := false
  goldenCross := false

/-- One-row frame around `exRowStage2`, all columns present. -/
def exDFStage2 : DataFrame where
  cols := Cols.all
  rows := [exRowStage2]

/-- A latest row whose `SMA200` is NaN while momentum, volume and relative
strength are all strong. -/
def exRowNaN200 : Row where
  close := PFloat.val 100
  sma50 := PFloat.val 50
  sma200 := PFloat.nan
  rsiWeekly := PFloat.val 60
  rsiMonthly := PFloat.val 60
  rv := PFloat.val 2
  mrs := PFloat.val 5
  rsLine := PFloat.val 0
  rsSMA20 := PFloat.val 0
  distSMA20 := PFloat.val 0
  rsBreakout := false
  goldenCross := false

/-- One-row frame around `exRowNaN200`, all columns present. -/
def exDFNaN200 : DataFrame where
  cols := Cols.all
  rows := [exRowNaN200]

/-- A latest row whose weekly RSI cell is NaN (column present). -/
def exRowNaNRSI : Row where
  close := PFloat.val 10
  sma50 := PFloat.val 5
  sma200 := PFloat.val 1
  rsiWeekly := PFloat.nan
  rsiMonthly := PFloat.val 50
  rv := PFloat.val 1
  mrs := PFloat.val 0
  rsLine := PFloat.val 0
  rsSMA20 := PFloat.val 0
  distSMA20 := PFloat.val 0
  rsBreakout := false
  goldenCross := false

/-- One-row frame around `exRowNaNRSI`, all columns present. -/
def exDFNaNRSI : DataFrame where
  cols := Cols.all
  rows := [exRowNaNRSI]

/-- A latest row at a fresh 252-bar closing high (close 100 after 90 and 95),
in Stage 2, with no edge-trigger condition of `get_ticker_alerts` firing
against `exPrevHigh`. -/
def exRowHigh : Row where
  close := PFloat.val 100
  sma50 := PFloat.val 10
  sma200 := PFloat.val 5
  rsiWeekly := PFloat.val 60
  rsiMonthly := PFloat.val 60
  rv := PFloat.val 1
  mrs := PFloat.val 1
  rsLine := PFloat.val 0
  rsSMA20 := PFloat.val 0
  distSMA20 := PFloat.val 0
  rsBreakout := false
  goldenCross := false

/-- History row with close 90 (other cells as in `exRowHigh`). -/
def exRowHigh90 : Row where
  close := PFloat.val 90
  sma50 := PFloat.val 10
  sma200 := PFloat.val 5
  rsiWeekly := PFloat.val 60
  rsiMonthly := PFloat.val 60
  rv := PFloat.val 1
  mrs := PFloat.val 1
  rsLine := PFloat.val 0
  rsSMA20 := PFloat.val 0
  distSMA20 := PFloat.val 0
  rsBreakout := false
  goldenCross := false

/-- History row with close 95 (other cells as in `exRowHigh`). -/
def exRowHigh95 : Row where
  close := PFloat.val 95
  sma50 := PFloat.val 10
  sma200 := PFloat.val 5
  rsiWeekly := PFloat.val 60
  rsiMonthly := PFloat.val 60
  rv := PFloat.val 1
  mrs := PFloat.val 1
  rsLine := PFloat.val 0
  rsSMA20 := PFloat.val 0
  distSMA20 := PFloat.val 0
  rsBreakout := false
  goldenCross := false

/-- Three-bar frame climbing 90 → 95 → 100, all columns present. -/
def exDFHigh : DataFrame where
  cols := Cols.all
  rows := [exRowHigh90, exRowHigh95, exRowHigh]

/-- The same frame truncated to only its last row. -/
def exDFHighShort : DataFrame where
  cols := Cols.all
  rows := [exRowHigh]

/-- Prior snapshot matching `exRowHigh` in every edge-trigger condition but
with the lower prior close 95. -/
def exPrevHigh : PrevEntry where
  close := some (PFloat.val 95)
  sma50 := some (PFloat.val 10)
  sma200 := some (PFloat.val 5)
  rsi_weekly := some (PFloat.val 60)
  mrs := some (PFloat.val 1)
  rv := some (PFloat.val 1)
  is_stage_2 := some true

/-- State holding only `exPrevHigh` under ticker `"X"`. -/
def exStateHigh : StateMap := fun t => if t = "X" then some exPrevHigh else none

/-- A persisted snapshot entry for the unprocessed instrument `"X"`. -/
def exEntryX : PrevEntry where
  close := some (PFloat.val 42)
  sma50 := some (PFloat.val 40)
  sma200 := some (PFloat.val 30)
  rsi_weekly := some (PFloat.val 55)
  mrs := some (PFloat.val 2)
  rv := some (PFloat.val 1)
  is_stage_2 := some true

/-- Prior persisted state containing only `"X"`'s entry. -/
def exPrevStateX : StateMap := fun t => if t = "X" then some exEntryX else none

/-- A flat OHLC bar at the given close with volume 100. -/
def exBar (c : ℚ) : Bar where
  openPrice := PFloat.val c
  high := PFloat.val c
  low := PFloat.val c
  close := PFloat.val c
  volume := PFloat.val 100

/-- A three-bar price history on Thu/Fri/Mon 1970-01-01, -02 and -05 (day
numbers 0, 1, 4), far fewer than 60 bars. -/
def exPriceDF : PriceDF where
  hasVolume := true
  rows := [(0, exBar 10), (1, exBar 11), (4, exBar 12)]

/-- A benchmark close series fully overlapping `exPriceDF`. -/
def exBenchSeries : List (ℕ × PFloat) :=
  [(0, PFloat.val 2), (1, PFloat.val 2), (4, PFloat.val 2)]

/-- A benchmark close series sharing no date with `exPriceDF`. -/
def exBenchDisjoint : List (ℕ × PFloat) := [(100, PFloat.val 2)]

/-- The last enriched row `calculate_metrics` produces from `exPriceDF` and
`exBenchSeries`: day 4, every lookback-window indicator still NA. -/
def exMetricRow4 : MetricRow where
  date := 4
  openPrice := PFloat.val 12
  high := PFloat.val 12
  low := PFloat.val 12
  close := PFloat.val 12
  volume := PFloat.val 100
  sma20 := PFloat.nan
  sma50 := PFloat.nan
  sma200 := PFloat.nan
  vol20avg := PFloat.nan
  rv := PFloat.nan
  volumeSpike := false
  rsLine := PFloat.val 6
  rsSMA50 := PFloat.nan
  rsSMA20 := PFloat.nan
  mrs := PFloat.nan
  atr := PFloat.nan
  distSMA20 := PFloat.nan
  rsi := PFloat.nan
  rsiWeekly := PFloat.nan
  rsiMonthly := PFloat.nan
  goldenCross := false
  rsBreakout := false

/-- Whether every persisted field of a snapshot entry is present and finite
(with a boolean Stage-2 flag). -/
def PrevEntry.allFinite (p : PrevEntry) : Bool :=
  (p.close.getD PFloat.nan).isFinite && (p.sma50.getD PFloat.nan).isFinite
    && (p.sma200.getD PFloat.nan).isFinite && (p.rsi_weekly.getD PFloat.nan).isFinite
    && (p.mrs.getD PFloat.nan).isFinite && (p.rv.getD PFloat.nan).isFinite
    && p.is_stage_2.isSome

/-!
## Comparison lemmas

IEEE comparisons against one and the same float can never assert a strict
relation and its converse at once — also in the presence of `nan`, where all
ordered comparisons are false.
-/

/-- A float cannot be both above and on-or-below another. -/
theorem PFloat.gt_and_le (a b : PFloat) : (PFloat.gt a b && PFloat.le a b) = false := by
  cases a <;> cases b <;> simp [PFloat.gt, PFloat.lt, PFloat.le]

/-- A float cannot be both below and on-or-above another. -/
theorem PFloat.lt_and_ge (a b : PFloat) : (PFloat.lt a b && PFloat.ge a b) = false := by
  cases a <;> cases b <;> simp [PFloat.ge, PFloat.lt, PFloat.le]

/-- A float cannot be both on-or-above and below another. -/
theorem PFloat.ge_and_lt (a b : PFloat) : (PFloat.ge a b && PFloat.lt a b) = false := by
  cases a <;> cases b <;> simp [PFloat.ge, PFloat.lt, PFloat.le]

/-- With a not-NA guard as well, on-or-above and below stay contradictory. -/
theorem PFloat.notna_ge_and_lt (a b : PFloat) :
    (a.notna && PFloat.ge a b && PFloat.lt a b) = false := by
  cases a <;> cases b <;> simp [PFloat.ge, PFloat.lt, PFloat.le, PFloat.notna]

/-- The Stage-2 boolean written by `update_ticker_state` equals the Stage-2
boolean recomputed by `get_ticker_alerts` from the same values. -/
theorem stage2_guard_eq (n1 n2 n3 g1 g2 : Bool) :
    (if n1 && n2 && n3 then g1 && g2 else false) = (n1 && n2 && n3 && g1 && g2) := by
  cases n1 <;> cases n2 <;> cases n3 <;> cases g1 <;> cases g2 <;> rfl

/-- Claim C2: alert detection is idempotent across runs.  After
`update_ticker_state(ticker, row)` persists the snapshot of a row, calling
`get_ticker_alerts(ticker, row, state)` again on the unchanged row against
that snapshot yields no alerts at all — in particular no Stage-2 flip, RS
breakout/breakdown, volume spike, SMA crossing, or RSI-50 alert. -/
theorem get_ticker_alerts_idempotent (t : String) (d : Option DataFrame) (st : StateMap) :
    get_ticker_alerts t d (update_ticker_state t d st) = [] := by
  cases d with
  | none => rfl
  | some df =>
    cases h : df.rows.getLast? with
    | none => simp [get_ticker_alerts, h]
    | some latest =>
      simp only [get_ticker_alerts, update_ticker_state, h, if_pos rfl,
        PrevEntry.isEmptyDict, Option.isNone, Option.getD, Bool.and_false,
        Bool.false_and, if_false, stage2_guard_eq, Bool.and_not_self,
        Bool.not_and_self, PFloat.gt_and_le, PFloat.lt_and_ge,
        PFloat.ge_and_lt, PFloat.notna_ge_and_lt]
      simp

/-- Claim C7: for an instrument with no prior snapshot entry, as long as the
frame has a row at all, `get_ticker_alerts` returns exactly the single
baseline-establishment event and no threshold-cross event, regardless of the
row's values. -/
theorem get_ticker_alerts_new_instrument (t : String) (df : DataFrame) (st : StateMap)
    (hnew : st t = none) (hne : df.rows ≠ []) :
    get_ticker_alerts t (some df) st = [Alert.initialBaseline] := by
  cases h : df.rows.getLast? with
  | none => exact absurd (by simpa using h) hne
  | some latest => simp [get_ticker_alerts, h, hnew]

/-- Witness for C7 at a concrete new instrument. -/
theorem get_ticker_alerts_new_instrument_witness :
    emptyState "A" = none ∧ exDFStage2.rows ≠ [] ∧
      get_ticker_alerts "A" (some exDFStage2) emptyState = [Alert.initialBaseline] :=
  ⟨rfl, by decide, get_ticker_alerts_new_instrument "A" exDFStage2 emptyState rfl (by decide)⟩

/-- `update_ticker_state` leaves every other ticker's entry unchanged. -/
theorem update_ticker_state_other (t : String) (d : Option DataFrame) (st : StateMap)
    (x : String) (hx : x ≠ t) : update_ticker_state t d st x = st x := by
  cases d with
  | none => rfl
  | some df =>
    cases h : df.rows.getLast? with
    | none => simp [update_ticker_state, h]
    | some latest => simp [update_ticker_state, h, hx]

/-- Counterexample to claim C3: a run that processes only `"Y"` and then
saves loses the prior entry of the unprocessed instrument `"X"` — the engine
rebuilds its state from the empty dict and `save_current_state` performs no
merge with the loaded previous state. -/
theorem run_state_drops_unprocessed :
    exPrevStateX "X" = some exEntryX ∧
      save_current_state (run_analytics_state [("Y", some exDFStage2)]) "X" = none := by
  exact ⟨rfl, by decide⟩

/-- Amended C3: the saved state of a run contains exactly the entries of the
instruments processed in that run; an instrument processed by no step of the
run has no entry in the saved state. -/
theorem run_state_unprocessed_absent (processed : List (String × Option DataFrame))
    (x : String) (hx : ∀ p ∈ processed, p.1 ≠ x) :
    save_current_state (run_analytics_state processed) x = none := by
  have key : ∀ (l : List (String × Option DataFrame)) (st : StateMap),
      (∀ p ∈ l, p.1 ≠ x) → st x = none →
      (l.foldl (fun s p => update_ticker_state p.1 p.2 s) st) x = none := by
    intro l
    induction l with
    | nil => intro st _ hst; exact hst
    | cons p ps ih =>
      intro st hl hst
      simp only [List.foldl_cons]
      exact ih _ (fun q hq => hl q (List.mem_cons_of_mem p hq))
        (by
          rw [update_ticker_state_other _ _ _ _ (Ne.symm (hl p (List.mem_cons_self p ps)))]
          exact hst)
  exact key processed emptyState hx rfl

/-- Witness for the amended C3 at a concrete partial run. -/
theorem run_state_unprocessed_absent_witness :
    (∀ p ∈ [("Y", some exDFStage2)], Prod.fst p ≠ "X") ∧
      save_current_state (run_analytics_state [("Y", some exDFStage2)]) "X" = none :=
  ⟨by decide, run_state_unprocessed_absent [("Y", some exDFStage2)] "X" (by decide)⟩

/-- Counterexample to claim C8: a present-but-NaN weekly RSI cell is stored
as NaN by `update_ticker_state` — the neutral sentinel 50 applies only when
the column is missing, so the stored field is not finite. -/
theorem update_ticker_state_keeps_nan :
    ((update_ticker_state "A" (some exDFNaNRSI) emptyState) "A").map PrevEntry.rsi_weekly
        = some (some PFloat.nan)
    ∧ PFloat.isFinite PFloat.nan = false ∧ PFloat.nan ≠ PFloat.val 50 := by
  decide

/-- Amended C8: each stored snapshot field is the row's value, with the
neutral defaults (0 / 50 / 1.0) used only for a missing column; hence when
every present field of the latest row is finite, every stored field is
finite, and the Stage-2 flag is always a boolean. -/
theorem update_ticker_state_finite_of_finite (t : String) (df : DataFrame)
    (st : StateMap) (latest : Row)
    (h : df.rows.getLast? = some latest)
    (hc : df.cols.close = true → latest.close.isFinite = true)
    (h50 : df.cols.sma50 = true → latest.sma50.isFinite = true)
    (h200 : df.cols.sma200 = true → latest.sma200.isFinite = true)
    (hrw : df.cols.rsiWeekly = true → latest.rsiWeekly.isFinite = true)
    (hm : df.cols.mrs = true → latest.mrs.isFinite = true)
    (hrv : df.cols.rv = true → latest.rv.isFinite = true) :
    ∃ e : PrevEntry, update_ticker_state t (some df) st t = some e
      ∧ PrevEntry.allFinite e = true := by
  simp only [update_ticker_state, h]
  refine ⟨_, if_pos trivial, ?_⟩
  simp only [PrevEntry.allFinite, Option.getD_some, Option.isSome_some, Bool.and_true, colGetD]
  split_ifs <;> simp_all [PFloat.isFinite]

/-- Witness for the amended C8 at a concrete finite row. -/
theorem update_ticker_state_finite_witness :
    exDFStage2.rows.getLast? = some exRowStage2 ∧
      (∃ e : PrevEntry, update_ticker_state "A" (some exDFStage2) emptyState "A" = some e
        ∧ PrevEntry.allFinite e = true) :=
  ⟨rfl, update_ticker_state_finite_of_finite "A" exDFStage2 emptyState exRowStage2 rfl
    (fun _ => rfl) (fun _ => rfl) (fun _ => rfl) (fun _ => rfl) (fun _ => rfl) (fun _ => rfl)⟩

/-- Counterexample to claim C9: at a fresh 252-bar closing high with the
close strictly above the prior stored close, `get_ticker_alerts` emits no
alert at all — no new-52-week-high alert exists in the transition detector
(the rolling 252-bar extrema are computed only for display in `scoring.py`). -/
theorem no_52w_high_alert_at_new_high :
    PFloat.ge exRowHigh.close (rolling_max_252_last (exDFHigh.rows.map Row.close)) = true
    ∧ PFloat.gt exRowHigh.close (exPrevHigh.close.getD PFloat.nan) = true
    ∧ get_ticker_alerts "X" (some exDFHigh) exStateHigh = [] := by
  decide

/-- Amended C9: the output of `get_ticker_alerts` depends only on the latest
row (and the stored snapshot), never on the rolling price history — so no
alert keyed to the 252-bar maximum can be emitted. -/
theorem get_ticker_alerts_last_row_only (t : String) (df df2 : DataFrame)
    (st : StateMap) (latest : Row) (hcols : df.cols = df2.cols)
    (h1 : df.rows.getLast? = some latest) (h2 : df2.rows.getLast? = some latest) :
    get_ticker_alerts t (some df) st = get_ticker_alerts t (some df2) st := by
  simp only [get_ticker_alerts, h1, h2, hcols]

/-- Witness for the amended C9: dropping the two history bars (and with them
any 252-bar-high information) does not change the emitted alerts. -/
theorem get_ticker_alerts_last_row_only_witness :
    exDFHigh.cols = exDFHighShort.cols
    ∧ exDFHigh.rows.getLast? = some exRowHigh
    ∧ exDFHighShort.rows.getLast? = some exRowHigh
    ∧ get_ticker_alerts "X" (some exDFHigh) exStateHigh
        = get_ticker_alerts "X" (some exDFHighShort) exStateHigh :=
  ⟨rfl, by decide, by decide,
    get_ticker_alerts_last_row_only "X" exDFHigh exDFHighShort exStateHigh exRowHigh
      rfl (by decide) (by decide)⟩

/-!
## Scoring block bounds and data-error characterisation
-/

/-- The trend/stage block awards between 0 and 30 points. -/
theorem trend_stage_points_bounds (r : Row) :
    0 ≤ trend_stage_points r ∧ trend_stage_points r ≤ 30 := by
  unfold trend_stage_points
  split_ifs <;> omega

/-- The multi-timeframe momentum block awards between 0 and 20 points. -/
theorem mtf_momentum_points_bounds (c : Cols) (r : Row) :
    0 ≤ mtf_momentum_points c r ∧ mtf_momentum_points c r ≤ 20 := by
  simp only [mtf_momentum_points]
  split_ifs <;> omega

/-- The volume block awards between 0 and 20 points. -/
theorem volume_points_bounds (c : Cols) (r : Row) :
    0 ≤ volume_points c r ∧ volume_points c r ≤ 20 := by
  simp only [volume_points]
  split_ifs <;> omega

/-- The relative-strength block awards between 0 and 30 points. -/
theorem relative_strength_points_bounds (c : Cols) (r : Row) :
    0 ≤ relative_strength_points c r ∧ relative_strength_points c r ≤ 30 := by
  simp only [relative_strength_points]
  split_ifs <;> omega

/-- No tier string of the final-rating ladder is the `"Data Error"` string. -/
theorem rating_of_score_ne_data_error (s : Int) : rating_of_score s ≠ "Data Error" := by
  unfold rating_of_score
  split_ifs <;> decide

/-- Claim C6: the score returned by `generate_rating` always lies in
`[0, 100]` — the block awards sum to at most 100, the extension penalty only
subtracts, and the result is clamped below at 0. -/
theorem generate_rating_score_in_range (df : Option DataFrame) :
    0 ≤ (generate_rating df).score ∧ (generate_rating df).score ≤ 100 := by
  cases df with
  | none => exact ⟨by decide, by decide⟩
  | some d =>
    cases h : d.rows.getLast? with
    | none =>
      cases hc : (d.cols.close && d.cols.sma50 && d.cols.sma200) <;>
        simp [generate_rating, h, hc, data_error_result]
    | some latest =>
      cases hc : (d.cols.close && d.cols.sma50 && d.cols.sma200) with
      | false => simp [generate_rating, h, hc, data_error_result]
      | true =>
        simp only [generate_rating, h, hc, Bool.not_true, Bool.false_eq_true,
          if_false]
        constructor
        · exact le_max_right _ _
        · refine max_le ?_ (by norm_num)
          have t1 := trend_stage_points_bounds latest
          have t2 := mtf_momentum_points_bounds d.cols latest
          have t3 := volume_points_bounds d.cols latest
          have t4 := relative_strength_points_bounds d.cols latest
          have t5 : (0 : Int) ≤ (if is_extended_flag d.cols latest = true then (25 : Int) else 0) := by
            split_ifs <;> omega
          omega

/-- Counterexample to claim C4: a latest row in pure Stage-2 alignment
(Close 100 > SMA50 50 > SMA200 10) with neutral momentum, volume, relative
strength and volatility scores exactly 30 under `generate_rating` — not 40:
the trend/stage block awards 30/15/5/0, not 40/20/0. -/
theorem stage2_neutral_scores_30 :
    (PFloat.gt exRowStage2.close exRowStage2.sma50
      && PFloat.gt exRowStage2.sma50 exRowStage2.sma200) = true
    ∧ (generate_rating (some exDFStage2)).score = 30
    ∧ ¬(generate_rating (some exDFStage2)).score = 40 := by
  with_unfolding_all decide

/-- Amended C4: the trend/stage block of `generate_rating` awards 30 points
for Close > SMA50 > SMA200, 15 for only Close > SMA200, 5 for only
Close > SMA50, else 0; with every other block neutral (no momentum, volume,
relative-strength or extension contribution) the returned score is exactly
the trend/stage award — in particular 30, not 40, for pure Stage-2 alignment. -/
theorem generate_rating_trend_block (d : DataFrame) (latest : Row)
    (h : d.rows.getLast? = some latest)
    (hc : (d.cols.close && d.cols.sma50 && d.cols.sma200) = true)
    (hm : (PFloat.notna (colGet d.cols.rsiMonthly latest.rsiMonthly)
      && PFloat.gt (colGet d.cols.rsiMonthly latest.rsiMonthly) (PFloat.val 50)) = false)
    (hw : (PFloat.notna (colGet d.cols.rsiWeekly latest.rsiWeekly)
      && PFloat.gt (colGet d.cols.rsiWeekly latest.rsiWeekly) (PFloat.val 50)) = false)
    (hv2 : PFloat.ge (colGetD d.cols.rv latest.rv (PFloat.val 1)) (PFloat.val 2) = false)
    (hv15 : PFloat.ge (colGetD d.cols.rv latest.rv (PFloat.val 1)) (PFloat.val (3/2)) = false)
    (hmrs : PFloat.gt (colGetD d.cols.mrs latest.mrs (PFloat.val 0)) (PFloat.val 0) = false)
    (hrs : PFloat.gt (colGetD d.cols.rsLine latest.rsLine (PFloat.val 0))
      (colGetD d.cols.rsSMA20 latest.rsSMA20 (PFloat.val 0)) = false)
    (hx : is_extended_flag d.cols latest = false) :
    (generate_rating (some d)).score = trend_stage_points latest := by
  simp only [generate_rating, h, hc, Bool.not_true, Bool.false_eq_true, if_false]
  have hmom : mtf_momentum_points d.cols latest = 0 := by
    simp only [mtf_momentum_points, hm, hw, Bool.false_eq_true, if_false, add_zero]
  have hvol : volume_points d.cols latest = 0 := by
    simp only [volume_points, hv2, hv15, Bool.false_eq_true, if_false]
  have hrsp : relative_strength_points d.cols latest = 0 := by
    simp only [relative_strength_points, hmrs, hrs, Bool.false_eq_true, if_false]
  rw [hmom, hvol, hrsp, hx]
  simp only [Bool.false_eq_true, if_false, add_zero, sub_zero]
  exact max_eq_left (trend_stage_points_bounds latest).1

/-- Witness for the amended C4 at the concrete pure-Stage-2 neutral row. -/
theorem generate_rating_trend_block_witness :
    exDFStage2.rows.getLast? = some exRowStage2
    ∧ (generate_rating (some exDFStage2)).score = trend_stage_points exRowStage2
    ∧ trend_stage_points exRowStage2 = 30 :=
  ⟨rfl,
    generate_rating_trend_block exDFStage2 exRowStage2 rfl (by decide) (by decide)
      (by decide) (by decide) (by with_unfolding_all decide) (by decide) (by decide)
      (by decide),
    by decide⟩

/-- Counterexample to claim C5: a latest row whose `SMA200` is NaN (column
present) does not fail closed — `generate_rating` still scores it (here 65,
"Tier 2"), because the safety check only tests column presence, not NaN. -/
theorem nan_sma200_not_data_error :
    exRowNaN200.sma200 = PFloat.nan
    ∧ (generate_rating (some exDFNaN200)).score = 65
    ∧ (generate_rating (some exDFNaN200)).rating = "Tier 2: Improving 📈"
    ∧ ¬ generate_rating (some exDFNaN200) = data_error_result := by
  decide

/-- Amended C5: `generate_rating` returns the score-0 `"Data Error"` payload
exactly when the frame is empty or one of the required columns `Close`,
`SMA50`, `SMA200` is missing; an undefined (NaN) value of SMA200, weekly RSI
or MRS does not trigger the data-error path. -/
theorem generate_rating_data_error_iff (d : DataFrame) :
    generate_rating (some d) = data_error_result ↔
      (d.rows = [] ∨ (d.cols.close && d.cols.sma50 && d.cols.sma200) = false) := by
  cases hc : (d.cols.close && d.cols.sma50 && d.cols.sma200) with
  | false =>
    simp only [generate_rating, hc, Bool.not_false, if_true]
    simp
  | true =>
    cases h : d.rows.getLast? with
    | none =>
      have hnil : d.rows = [] := by simpa using h
      simp only [generate_rating, h, hc, Bool.not_true, Bool.false_eq_true, if_false]
      simp [hnil]
    | some latest =>
      have hne : d.rows ≠ [] := by
        intro hnil
        rw [hnil] at h
        exact Option.noConfusion h
      simp only [generate_rating, h, hc, Bool.not_true, Bool.false_eq_true, if_false]
      constructor
      · intro he
        exact absurd (congrArg RatingResult.rating he)
          (rating_of_score_ne_data_error _)
      · intro hor
        rcases hor with hnil | hfalse
        · exact absurd hnil hne
        · exact absurd hfalse (by simp [hc])

/-!
## MetricEngine shape and multi-timeframe placement
-/

/-- Reading a list back element-wise by index reproduces the list. -/
theorem list_range_getD {α : Type} (l : List α) (d : α) :
    (List.range l.length).map (fun i => l.getD i d) = l := by
  induction l with
  | nil => rfl
  | cons x xs ih =>
    rw [List.length_cons, List.range_succ_eq_map, List.map_cons, List.map_map]
    simp only [List.getD_cons_zero, Function.comp_def, List.getD_cons_succ]
    rw [ih]

/-- Counterexample to claim C10: on a 3-bar history (far below the claimed
60-bar minimum) with a fully overlapping benchmark, `calculate_metrics`
returns its 3 enriched rows normally, and on a benchmark sharing no dates it
returns the empty row list — it never fails: no `InsufficientDataError` or
`AlignmentError` exists anywhere in the repository and the function contains
no validation or raise. -/
theorem calculate_metrics_never_fails :
    exPriceDF.rows.length < 60
    ∧ (calculate_metrics exPriceDF exBenchSeries).length = 3
    ∧ calculate_metrics exPriceDF exBenchDisjoint = [] := by
  with_unfolding_all decide

/-- Amended C10: `calculate_metrics` is a total transformation with no
error path: for every price/benchmark input it returns one enriched row per
inner-join-aligned date — in particular a (possibly indicator-NaN) row list
for histories below any bar minimum, and the empty list when no dates
overlap.  The 50-bar minimum is enforced by the caller
`run_analytics_engine`, which skips such tickers before calling. -/
theorem calculate_metrics_shape (df : PriceDF) (bench : List (ℕ × PFloat)) :
    (calculate_metrics df bench).map MetricRow.date = alignedDates df bench
    ∧ (calculate_metrics df bench).length = (alignedDates df bench).length := by
  constructor
  · simp only [calculate_metrics, alignedDates, List.map_map]
    have hlen : (alignedRows df bench).length
        = ((alignedRows df bench).map Prod.fst).length := (List.length_map _ _).symm
    rw [hlen]
    exact list_range_getD _ 0
  · simp [calculate_metrics, alignedDates]

/-- Membership in a sorted insert. -/
theorem insertSorted_mem (x a : ℕ) (l : List ℕ) :
    a ∈ insertSorted x l ↔ a = x ∨ a ∈ l := by
  induction l with
  | nil => simp [insertSorted]
  | cons y ys ih =>
    unfold insertSorted
    split_ifs with h1 h2
    · simp [List.mem_cons]
    · subst h2
      simp [List.mem_cons]
    · simp only [List.mem_cons, ih]
      tauto

/-- Sorted insert keeps a strictly increasing list strictly increasing. -/
theorem insertSorted_pairwise (x : ℕ) (l : List ℕ) (h : l.Pairwise (· < ·)) :
    (insertSorted x l).Pairwise (· < ·) := by
  induction l with
  | nil => simp [insertSorted]
  | cons y ys ih =>
    rw [List.pairwise_cons] at h
    obtain ⟨hy, hys⟩ := h
    unfold insertSorted
    split_ifs with h1 h2
    · refine List.Pairwise.cons ?_ (List.Pairwise.cons hy hys)
      intro b hb
      rcases List.mem_cons.mp hb with rfl | hb2
      · exact h1
      · exact lt_trans h1 (hy b hb2)
    · exact List.Pairwise.cons hy hys
    · have hyx : y < x := by omega
      refine List.Pairwise.cons ?_ (ih hys)
      intro b hb
      rcases (insertSorted_mem x b ys).mp hb with rfl | hb2
      · exact hyx
      · exact hy b hb2

/-- `sortedDedup` always yields a strictly increasing list. -/
theorem sortedDedup_pairwise (xs : List ℕ) : (sortedDedup xs).Pairwise (· < ·) := by
  unfold sortedDedup
  induction xs with
  | nil => simp
  | cons x xs ih => exact insertSorted_pairwise x _ ih

/-- The resample bin labels are strictly increasing. -/
theorem binLabelsFor_pairwise (lab : ℕ → ℕ) (dates : List ℕ) :
    (binLabelsFor lab dates).Pairwise (· < ·) := by
  unfold binLabelsFor
  split
  · exact sortedDedup_pairwise _
  · exact List.Pairwise.nil

/-- Zipping values onto strictly increasing keys keeps the keys strictly
increasing pairwise. -/
theorem zip_pairwise_fst (l : List ℕ) (ys : List PFloat) (h : l.Pairwise (· < ·)) :
    (l.zip ys).Pairwise (fun p q => p.1 < q.1) := by
  induction l generalizing ys with
  | nil => simp
  | cons x xs ih =>
    cases ys with
    | nil => simp
    | cons y ys2 =>
      rw [List.zip_cons_cons, List.pairwise_cons]
      rw [List.pairwise_cons] at h
      refine ⟨?_, ih ys2 h.2⟩
      rintro ⟨b1, b2⟩ hb
      exact h.1 b1 (List.of_mem_zip hb).1

/-- The per-bucket RSI series has strictly increasing bucket labels. -/
theorem resampleRSI_pairwise (lab : ℕ → ℕ) (cs : List (ℕ × PFloat)) :
    (resampleRSI lab cs).Pairwise (fun p q => p.1 < q.1) := by
  unfold resampleRSI
  exact zip_pairwise_fst _ _ (binLabelsFor_pairwise _ _)

/-- In a list with strictly increasing keys, every member's key is at most
the last element's key. -/
theorem mem_le_getLast :
    ∀ (s : List (ℕ × PFloat)), s.Pairwise (fun p q => p.1 < q.1) →
      ∀ q ∈ s, ∀ m, s.getLast? = some m → q.1 ≤ m.1 := by
  intro s
  induction s with
  | nil => intro _ q hq; cases hq
  | cons a as ih =>
    intro hs q hq m hm
    rw [List.pairwise_cons] at hs
    cases as with
    | nil =>
      rcases List.mem_singleton.mp hq with rfl
      simp only [List.getLast?_singleton, Option.some.injEq] at hm
      rw [hm]
    | cons b bs =>
      have hm2 : (b :: bs).getLast? = some m := by
        rw [← hm]
        rfl
      rcases List.mem_cons.mp hq with rfl | hq2
      · exact le_of_lt (hs.1 m (List.mem_of_getLast?_eq_some hm2))
      · exact ih hs.2 q hq2 m hm2

/-- Forward-fill specification: the reindexed value at `d` comes from the
greatest series key on/before `d`, or is NA when every key lies after `d`. -/
theorem ffill_spec (s : List (ℕ × PFloat)) (hs : s.Pairwise (fun p q => p.1 < q.1)) (d : ℕ) :
    fromLatestBucketLE s d (ffillVal s d) := by
  unfold fromLatestBucketLE ffillVal
  cases hlast : (s.filter (fun p => p.1 ≤ d)).getLast? with
  | none =>
    right
    refine ⟨?_, rfl⟩
    have hnil := List.getLast?_eq_none_iff.mp hlast
    intro q hq hle
    have hmem : q ∈ s.filter (fun p => p.1 ≤ d) :=
      List.mem_filter.mpr ⟨hq, by simpa using hle⟩
    rw [hnil] at hmem
    cases hmem
  | some p =>
    left
    have hpmem := List.mem_of_getLast?_eq_some hlast
    have hp := List.mem_filter.mp hpmem
    refine ⟨p, hp.1, by simpa using hp.2, ?_, rfl⟩
    intro q hq hqle
    have hqf : q ∈ s.filter (fun p => p.1 ≤ d) :=
      List.mem_filter.mpr ⟨hq, by simpa using hqle⟩
    exact mem_le_getLast _ (hs.filter _) q hqf p hlast

/-- Rebuilding the date-keyed forward-fill column by row index reproduces the
keyed series. -/
theorem range_map_ffill (l : List (ℕ × Bar)) (s : List (ℕ × PFloat)) :
    (List.range (l.map Prod.fst).length).map
        (fun i => ((l.map Prod.fst).getD i 0,
          (l.map (fun x => ffillVal s x.1)).getD i PFloat.nan))
      = l.map (fun x => (x.1, ffillVal s x.1)) := by
  induction l with
  | nil => rfl
  | cons x xs ih =>
    simp only [List.map_cons, List.length_cons, List.range_succ_eq_map, List.map_map,
      Function.comp_def, List.getD_cons_zero, List.getD_cons_succ]
    exact congrArg (List.cons (x.1, ffillVal s x.1)) ih

/-- The weekly-RSI column of `calculate_metrics`, keyed by date, is exactly
the resample-then-forward-fill series of the aligned closes. -/
theorem calc_metrics_weekly_col (df : PriceDF) (bench : List (ℕ × PFloat)) :
    (calculate_metrics df bench).map (fun r => (r.date, r.rsiWeekly))
      = mtfRSI weekLabel (closeSeries df bench) := by
  simp only [calculate_metrics, mtfRSI, reindexFfill, closeSeries, List.map_map,
    Function.comp_def]
  have hlen : (alignedRows df bench).length
      = ((alignedRows df bench).map Prod.fst).length := (List.length_map _ _).symm
  rw [hlen]
  exact range_map_ffill _ _

/-- The monthly-RSI column of `calculate_metrics`, keyed by date, is exactly
the resample-then-forward-fill series of the aligned closes. -/
theorem calc_metrics_monthly_col (df : PriceDF) (bench : List (ℕ × PFloat)) :
    (calculate_metrics df bench).map (fun r => (r.date, r.rsiMonthly))
      = mtfRSI monthEnd (closeSeries df bench) := by
  simp only [calculate_metrics, mtfRSI, reindexFfill, closeSeries, List.map_map,
    Function.comp_def]
  have hlen : (alignedRows df bench).length
      = ((alignedRows df bench).map Prod.fst).length := (List.length_map _ _).symm
  rw [hlen]
  exact range_map_ffill _ _

/-- A date/value pair of the reindexed column equals the forward-fill value
at that date. -/
theorem mtf_mem_eq (lab : ℕ → ℕ) (cs : List (ℕ × PFloat)) (d : ℕ) (v : PFloat)
    (h : (d, v) ∈ mtfRSI lab cs) : v = ffillVal (resampleRSI lab cs) d := by
  unfold mtfRSI reindexFfill at h
  rcases List.mem_map.mp h with ⟨e, _, heq⟩
  rw [Prod.mk.injEq] at heq
  rw [← heq.2, heq.1]

/-- Claim C1: no look-ahead in the multi-timeframe RSI.  For every enriched
row produced by `calculate_metrics`, the weekly and the monthly RSI cell each
equal the per-bucket RSI of the most recent resample bucket whose label date
is on/before the row's date (NA while no bucket has closed yet); no bucket
completing after that date contributes. -/
theorem mtf_rsi_no_lookahead (df : PriceDF) (bench : List (ℕ × PFloat)) (r : MetricRow)
    (hr : r ∈ calculate_metrics df bench) :
    fromLatestBucketLE (resampleRSI weekLabel (closeSeries df bench)) r.date r.rsiWeekly
    ∧ fromLatestBucketLE (resampleRSI monthEnd (closeSeries df bench)) r.date r.rsiMonthly := by
  constructor
  · have hw : (r.date, r.rsiWeekly) ∈ mtfRSI weekLabel (closeSeries df bench) := by
      rw [← calc_metrics_weekly_col df bench]
      exact List.mem_map_of_mem _ hr
    rw [mtf_mem_eq _ _ _ _ hw]
    exact ffill_spec _ (resampleRSI_pairwise _ _) _
  · have hm : (r.date, r.rsiMonthly) ∈ mtfRSI monthEnd (closeSeries df bench) := by
      rw [← calc_metrics_monthly_col df bench]
      exact List.mem_map_of_mem _ hr
    rw [mtf_mem_eq _ _ _ _ hm]
    exact ffill_spec _ (resampleRSI_pairwise _ _) _

/-- Witness for C1 at a concrete three-bar frame. -/
theorem mtf_rsi_no_lookahead_witness :
    exMetricRow4 ∈ calculate_metrics exPriceDF exBenchSeries
    ∧ (fromLatestBucketLE (resampleRSI weekLabel (closeSeries exPriceDF exBenchSeries))
          exMetricRow4.date exMetricRow4.rsiWeekly
        ∧ fromLatestBucketLE (resampleRSI monthEnd (closeSeries exPriceDF exBenchSeries))
          exMetricRow4.date exMetricRow4.rsiMonthly) :=
  ⟨by with_unfolding_all decide,
    mtf_rsi_no_lookahead exPriceDF exBenchSeries exMetricRow4 (by with_unfolding_all decide)⟩
